import Mathlib

/-!
Verification of the item-resolution and match-quality engine of the
spotify-tools repository (`src/spotify_tools/playlist.py` and the dry-run
consumer in `src/spotify_tools/commands/create_playlist.py`).

The Python code is shallowly embedded: strings are Lean `String`s (logically
`List Char`), Python floats are modelled as exact rationals `ℚ`, provider
calls that may raise are modelled as `Except String`-valued fields of a
`Provider` record, and `difflib`'s `SequenceMatcher.ratio` /
`get_close_matches` are embedded by their documented algorithm (the j2len
dynamic program for longest matching blocks; the junk/autojunk heuristic,
which only activates for sequences of 200 or more elements, is omitted).
Character classes (`\w`, `\s`, `str.lower`) are modelled at ASCII scope.
-/

/-- Python `\s` / `str.strip` / `str.split` whitespace at ASCII scope:
space, tab, newline, carriage return, vertical tab, form feed. -/
def pyIsSpace (c : Char) : Bool :=
  c == ' ' || c == '\t' || c == '\n' || c == '\r' || c == '\x0b' || c == '\x0c'

/-- Python regex `\w` at ASCII scope: alphanumeric or underscore. -/
def isWordChar (c : Char) : Bool :=
  c.isAlphanum || c == '_'

/-- Drop leading and trailing whitespace from a character list
(Python `str.strip()`). -/
def stripChars (l : List Char) : List Char :=
  ((l.dropWhile pyIsSpace).reverse.dropWhile pyIsSpace).reverse

/-- Python `str.strip()`. -/
def pyStrip (s : String) : String :=
  String.mk (stripChars s.data)

/-- `listStarts l p`: does `l` start with `p` (Python `str.startswith`). -/
def listStarts : List Char → List Char → Bool
  | _, [] => true
  | [], _ :: _ => false
  | c :: cs, d :: ds => c == d && listStarts cs ds

/-- Python `str.startswith`. -/
def strStarts (s p : String) : Bool :=
  listStarts s.data p.data

/-- Python slicing `s[n:]` (by code points). -/
def strDrop (s : String) (n : Nat) : String :=
  String.mk (s.data.drop n)

/-- Python `str.lower()` at ASCII scope. -/
def pyLower (s : String) : String :=
  String.mk (s.data.map Char.toLower)

/-- Worker for Python `str.split()` (split on whitespace runs, no empty
words); `acc` holds the current word reversed. -/
def splitWsAux : List Char → List Char → List String
  | [], acc => if acc.isEmpty then [] else [String.mk acc.reverse]
  | c :: cs, acc =>
    if pyIsSpace c then
      if acc.isEmpty then splitWsAux cs []
      else String.mk acc.reverse :: splitWsAux cs []
    else splitWsAux cs (c :: acc)

/-- Python `str.split()` with no separator argument. -/
def pySplit (s : String) : List String :=
  splitWsAux s.data []

/-- Worker for Python `str.split(":")`. -/
def splitColonAux : List Char → List Char → List String
  | [], acc => [String.mk acc.reverse]
  | c :: cs, acc =>
    if c == ':' then String.mk acc.reverse :: splitColonAux cs []
    else splitColonAux cs (c :: acc)

/-- Python `str.split(":")` (always returns a nonempty list). -/
def pySplitColon (s : String) : List String :=
  splitColonAux s.data []

/-- Python `s.split(":")[-1]`. -/
def lastSeg (s : String) : String :=
  (pySplitColon s).getLastD ""

/-- Python `", ".join(l)`. -/
def joinComma : List String → String
  | [] => ""
  | [x] => x
  | x :: xs => x ++ ", " ++ joinComma xs

/-- `normalize_string` from playlist.py:
`re.sub(r"[^\w\s]", "", s.lower()).strip()` — lower-case, keep only word
characters and whitespace, strip. -/
def normalize_string (s : String) : String :=
  pyStrip (String.mk ((pyLower s).data.filter (fun c => isWordChar c || pyIsSpace c)))

/-! ### difflib.SequenceMatcher model

`SequenceMatcher.ratio()` is `2 * M / (len(a) + len(b))` where `M` is the
total size of the matching blocks found by recursively locating the longest
matching block (`find_longest_match`, the `j2len` dynamic program) and
recursing on the pieces to its left and right. -/

/-- Do positions `i` of `a` and `j` of `b` hold equal characters inside the
lower window bounds (`alo ≤ i`, `blo ≤ j`)? -/
def matchAt (a b : List Char) (alo blo i j : Nat) : Bool :=
  decide (alo ≤ i) && decide (blo ≤ j) &&
  decide (i < a.length) && decide (j < b.length) &&
  (a.getD i ' ' == b.getD j ' ')

/-- difflib's `j2len` recurrence: the length of the common block of `a` and
`b` ending exactly at positions `i`, `j` and staying inside the window lower
bounds `alo`, `blo`. -/
def matchLenAt (a b : List Char) (alo blo : Nat) : Nat → Nat → Nat
  | 0, j => if matchAt a b alo blo 0 j then 1 else 0
  | i + 1, 0 => if matchAt a b alo blo (i + 1) 0 then 1 else 0
  | i + 1, j + 1 =>
    if matchAt a b alo blo (i + 1) (j + 1) then
      if i + 1 = alo ∨ j + 1 = blo then 1
      else matchLenAt a b alo blo i j + 1
    else 0

/-- difflib `find_longest_match` on the window `[alo, ahi) × [blo, bhi)`:
scan end positions in increasing row-major order, recording a new block
start `(i + 1 - k, j + 1 - k, k)` only on strict improvement (so the first,
lowest-position longest block wins, as in difflib). -/
def findLongestMatch (a b : List Char) (alo ahi blo bhi : Nat) : Nat × Nat × Nat :=
  (List.range' alo (ahi - alo)).foldl
    (fun best i =>
      (List.range' blo (bhi - blo)).foldl
        (fun best j =>
          let k := matchLenAt a b alo blo i j
          if best.2.2 < k then (i + 1 - k, j + 1 - k, k) else best)
        best)
    (alo, blo, 0)

/-- Total size of difflib's matching blocks on a window: take the longest
match and recurse left and right of it.  `fuel` only bounds the recursion
depth; every call strictly shrinks the window, so any fuel larger than the
window perimeter computes the exact value. -/
def matchingSize (a b : List Char) : Nat → Nat → Nat → Nat → Nat → Nat
  | 0, _, _, _, _ => 0
  | fuel + 1, alo, ahi, blo, bhi =>
    let t := findLongestMatch a b alo ahi blo bhi
    if t.2.2 = 0 then 0
    else
      matchingSize a b fuel alo t.1 blo t.2.1 + t.2.2 +
        matchingSize a b fuel (t.1 + t.2.2) ahi (t.2.1 + t.2.2) bhi

/-- difflib `SequenceMatcher(None, a, b).ratio()`:
`2 * M / (len a + len b)`, and `1` for two empty sequences
(difflib `_calculate_ratio`). -/
def pyRatio (a b : List Char) : ℚ :=
  if a.length + b.length = 0 then 1
  else
    2 * (matchingSize a b (a.length + b.length + 1) 0 a.length 0 b.length : ℚ) /
      ((a.length : ℚ) + (b.length : ℚ))

/-- `ratio` on strings. -/
def pyRatioStr (s1 s2 : String) : ℚ :=
  pyRatio s1.data s2.data

/-- difflib `get_close_matches(query_word, result_words, n=1, cutoff=0.6)`
is nonempty iff some candidate reaches ratio `0.6`; the `real_quick_ratio`
and `quick_ratio` pre-filters are upper bounds on `ratio` and so do not
change this.  difflib sets `seq1` to the possibility and `seq2` to the word. -/
def hasCloseMatch (query_word : String) (result_words : List String) : Bool :=
  result_words.any (fun x => decide ((3 / 5 : ℚ) ≤ pyRatioStr x query_word))

/-- `calculate_string_similarity` from playlist.py. -/
def calculate_string_similarity (s1 s2 : String) : ℚ :=
  let norm_s1 := normalize_string s1
  let norm_s2 := normalize_string s2
  if norm_s1 = "" ∨ norm_s2 = "" then 0
  else pyRatioStr norm_s1 norm_s2

/-- `calculate_fuzzy_word_similarity` from playlist.py: fraction of query
words having a close match (cutoff 0.6) among the result words. -/
def calculate_fuzzy_word_similarity (query result_text : String) : ℚ :=
  let query_words := pySplit (normalize_string query)
  let result_words := pySplit (normalize_string result_text)
  if query_words.isEmpty || result_words.isEmpty then 0
  else
    ((query_words.countP (fun w => hasCloseMatch w result_words) : ℚ)) /
      (query_words.length : ℚ)

/-- Round a rational to the nearest integer, halves to even (the rounding
used when Python formats a float with `"{:.2f}"`; the model rounds the exact
rational rather than its binary-double approximation). -/
def roundHalfEven (x : ℚ) : ℤ :=
  let f := ⌊x⌋
  let r := x - (f : ℚ)
  if r < 1 / 2 then f
  else if 1 / 2 < r then f + 1
  else if f % 2 = 0 then f else f + 1

/-- Python `f"{x:.2f}"` for the nonnegative scores appearing in reasons. -/
def fmt2 (x : ℚ) : String :=
  let n := (roundHalfEven (x * 100)).toNat
  let ip := n / 100
  let fp := n % 100
  toString ip ++ "." ++ (if fp < 10 then "0" ++ toString fp else toString fp)

/-- `calculate_match_quality` from playlist.py: hybrid weighted score and
human-readable reason. -/
def calculate_match_quality (query result_name result_artists : String) : ℚ × String :=
  if result_name = "" then (0, "No result found")
  else if query = "" then (0, "Empty query")
  else
    let result_full := pyStrip (result_name ++ " " ++ result_artists)
    let string_sim := calculate_string_similarity query result_full
    let fuzzy_word_sim := calculate_fuzzy_word_similarity query result_full
    let overall_quality := 3 / 5 * string_sim + 2 / 5 * fuzzy_word_sim
    let tail := " (str: " ++ fmt2 string_sim ++ ", word: " ++ fmt2 fuzzy_word_sim ++ ")"
    let reason :=
      if overall_quality ≥ 4 / 5 then "Excellent match" ++ tail
      else if overall_quality ≥ 3 / 5 then "Good match" ++ tail
      else if overall_quality ≥ 3 / 10 then "Fair match" ++ tail
      else if overall_quality ≥ 1 / 10 then "Weak match" ++ tail
      else "Poor match" ++ tail
    (overall_quality, reason)

/-- `parse_item` from playlist.py: classify one raw input line. -/
def parse_item (item_string : String) : String × String :=
  let s := pyStrip item_string
  if strStarts s "spotify:" then ("uri", s)
  else if strStarts s "album:" then ("album", pyStrip (strDrop s 6))
  else if strStarts s "single:" then ("album", pyStrip (strDrop s 7))
  else if strStarts s "track:" then ("track", pyStrip (strDrop s 6))
  else ("auto", s)

/-! ### Data model and provider interface

The provider mirrors the narrow slice of the spotipy client that the
resolution engine calls.  A call that raises in Python is an `Except.error`
carrying the exception message; `sp.track` / `sp.album` may also return a
falsy record without raising, modelled by `Option`. -/

/-- One track record as returned by the provider (uri, display name,
artist display names). -/
structure Track where
  uri : String
  name : String
  artists : List String
deriving DecidableEq

/-- One album record as returned by the provider; `tracks` models the
embedded `album["tracks"]["items"]` payload used by URI resolution. -/
structure Album where
  id : String
  name : String
  artists : List String
  tracks : List Track
deriving DecidableEq

/-- `ResolvedTrack` dataclass from playlist.py. -/
structure ResolvedTrack where
  uri : String
  name : String
  artists : String
  source_query : String
deriving DecidableEq

/-- The raw candidate payload stored in `SearchResult.found_item`: a track
dict, an album dict, or the `{"uri": query, "type": "uri"}` dict built for
URI items. -/
inductive FoundItem where
  | trackItem : Track → FoundItem
  | albumItem : Album → FoundItem
  | uriItem : String → FoundItem
deriving DecidableEq

/-- `SearchResult` dataclass from playlist.py. -/
structure SearchResult where
  query : String
  search_type : String
  found_item : Option FoundItem
  match_quality : ℚ
  quality_reason : String
  resolved_tracks : List ResolvedTrack
deriving DecidableEq

/-- The injected search provider (the slice of `SpotifyClient` used by the
resolution engine).  `searchTracks q` models
`sp.search(q=q, type="track", limit=1)["tracks"]["items"]`, `searchAlbums`
the album analogue, `track` / `album` the by-id lookups, `album_tracks a`
the `sp.album_tracks(a)["items"]` listing. -/
structure Provider where
  searchTracks : String → Except String (List Track)
  searchAlbums : String → Except String (List Album)
  track : String → Except String (Option Track)
  album : String → Except String (Option Album)
  album_tracks : String → Except String (List Track)

/-- `format_artists` from playlist.py: `", ".join(artist names)`. -/
def format_artists (track : Track) : String :=
  joinComma track.artists

/-- `search_track` from playlist.py. -/
def search_track (sp : Provider) (query : String) : SearchResult :=
  match sp.searchTracks query with
  | .error e =>
    { query := query, search_type := "track", found_item := none,
      match_quality := 0, quality_reason := "Search error: " ++ e,
      resolved_tracks := [] }
  | .ok tracks =>
    match tracks with
    | track :: _ =>
      let artists_str := format_artists track
      let qr := calculate_match_quality query track.name artists_str
      { query := query, search_type := "track",
        found_item := some (.trackItem track),
        match_quality := qr.1, quality_reason := qr.2,
        resolved_tracks :=
          if qr.1 > 1 / 5 then
            [{ uri := track.uri, name := track.name, artists := artists_str,
               source_query := "track:" ++ query }]
          else [] }
    | [] =>
      { query := query, search_type := "track", found_item := none,
        match_quality := 0, quality_reason := "No results found",
        resolved_tracks := [] }

/-- `search_album` from playlist.py.  The track-listing call sits in its own
`try`: a failure there degrades to `resolved_tracks = []`. -/
def search_album (sp : Provider) (query : String) : SearchResult :=
  match sp.searchAlbums query with
  | .error e =>
    { query := query, search_type := "album", found_item := none,
      match_quality := 0, quality_reason := "Search error: " ++ e,
      resolved_tracks := [] }
  | .ok albums =>
    match albums with
    | album :: _ =>
      let album_artists := joinComma album.artists
      let qr := calculate_match_quality query album.name album_artists
      let resolved_tracks :=
        if qr.1 > 1 / 5 then
          match sp.album_tracks album.id with
          | .error _ => []
          | .ok ts =>
            ts.map (fun track =>
              { uri := track.uri, name := track.name,
                artists := format_artists track,
                source_query := "album:" ++ query })
        else []
      { query := query, search_type := "album",
        found_item := some (.albumItem album),
        match_quality := qr.1, quality_reason := qr.2,
        resolved_tracks := resolved_tracks }
    | [] =>
      { query := query, search_type := "album", found_item := none,
        match_quality := 0, quality_reason := "No results found",
        resolved_tracks := [] }

/-- `search_auto` from playlist.py: try tracks first, then albums, else the
better of the two weak results (ties favor the track result). -/
def search_auto (sp : Provider) (query : String) : SearchResult :=
  let track_result := search_track sp query
  if track_result.match_quality > 2 / 5 then
    { track_result with search_type := "auto (found track)" }
  else
    let album_result := search_album sp query
    if album_result.match_quality > 2 / 5 then
      { album_result with search_type := "auto (found album)" }
    else if track_result.match_quality ≥ album_result.match_quality then
      { track_result with search_type := "auto (weak track match)" }
    else
      { album_result with search_type := "auto (weak album match)" }

/-- `resolve_uri` from playlist.py: any exception and any falsy payload
yield `none`; URIs that are neither `spotify:track:` nor `spotify:album:`
yield `none` without touching the provider. -/
def resolve_uri (sp : Provider) (uri : String) : Option (List ResolvedTrack) :=
  if strStarts uri "spotify:track:" then
    match sp.track (lastSeg uri) with
    | .error _ => none
    | .ok none => none
    | .ok (some track) =>
      some [{ uri := track.uri, name := track.name,
              artists := format_artists track, source_query := uri }]
  else if strStarts uri "spotify:album:" then
    match sp.album (lastSeg uri) with
    | .error _ => none
    | .ok none => none
    | .ok (some album) =>
      some (album.tracks.map (fun track =>
        { uri := track.uri, name := track.name,
          artists := format_artists track, source_query := uri }))
  else none

/-- The failure-shaped result emitted for a URI item that did not resolve
to a nonempty track list. -/
def uriFailResult (query : String) : SearchResult :=
  { query := query, search_type := "uri", found_item := none,
    match_quality := 0, quality_reason := "Invalid or inaccessible URI",
    resolved_tracks := [] }

/-- `resolve_items` from playlist.py: classify each item and dispatch.  A
URI item succeeds only when `resolve_uri` returns a truthy (nonempty) list,
matching Python's `if tracks:`. -/
def resolve_items (sp : Provider) (items : List String) : List SearchResult :=
  items.map (fun item =>
    let p := parse_item item
    let item_type := p.1
    let query := p.2
    if item_type = "uri" then
      match resolve_uri sp query with
      | some tracks =>
        if tracks.isEmpty then uriFailResult query
        else
          { query := query, search_type := "uri",
            found_item := some (.uriItem query),
            match_quality := 1, quality_reason := "Direct URI match",
            resolved_tracks := tracks }
      | none => uriFailResult query
    else if item_type = "track" then search_track sp query
    else if item_type = "album" then search_album sp query
    else search_auto sp query)

/-- The good-matches list built by `_handle_dry_run` in
commands/create_playlist.py: the comprehension
`[track for result in search_results if result.match_quality >= 0.3
for track in result.resolved_tracks]`. -/
def good_tracks : List SearchResult → List ResolvedTrack
  | [] => []
  | result :: rest =>
    (if (3 / 10 : ℚ) ≤ result.match_quality then result.resolved_tracks else []) ++
      good_tracks rest

/-- Modelled from the spec: "the resolved_tracks of those SearchResults
whose match_quality is greater than or equal to 0.3, flattened preserving
result order then track order". -/
def good_tracks_spec (search_results : List SearchResult) : List ResolvedTrack :=
  (search_results.filter (fun r => decide ((3 / 10 : ℚ) ≤ r.match_quality))).foldr
    (fun r acc => r.resolved_tracks ++ acc) []

/-! ### Concrete providers and results used by the witnesses -/

/-- A track whose name matches the test query `"ab"` exactly. -/
def trackAB : Track :=
  { uri := "spotify:track:aaa", name := "ab", artists := [] }

/-- A track whose name `"fghab"` is a weak match for the query `"abcde"`
(quality 6/25). -/
def trackWeak : Track :=
  { uri := "spotify:track:bbb", name := "fghab", artists := [] }

/-- An album whose name matches the test query `"ab"` exactly. -/
def albumAB : Album :=
  { id := "alb1", name := "ab", artists := [], tracks := [] }

/-- Provider whose track search returns an exact match. -/
def provExact : Provider :=
  { searchTracks := fun _ => .ok [trackAB], searchAlbums := fun _ => .ok [],
    track := fun _ => .ok none, album := fun _ => .ok none,
    album_tracks := fun _ => .ok [] }

/-- Provider whose track search returns only a weak match. -/
def provWeak : Provider :=
  { searchTracks := fun _ => .ok [trackWeak], searchAlbums := fun _ => .ok [],
    track := fun _ => .ok none, album := fun _ => .ok none,
    album_tracks := fun _ => .ok [] }

/-- Provider every one of whose operations raises. -/
def provRaise : Provider :=
  { searchTracks := fun _ => .error "boom", searchAlbums := fun _ => .error "boom",
    track := fun _ => .error "boom", album := fun _ => .error "boom",
    album_tracks := fun _ => .error "boom" }

/-- Provider whose searches raise and whose lookups return falsy records. -/
def provFail : Provider :=
  { searchTracks := fun _ => .error "boom", searchAlbums := fun _ => .error "boom",
    track := fun _ => .ok none, album := fun _ => .ok none,
    album_tracks := fun _ => .error "boom" }

/-- Provider that finds an album but fails on the track listing. -/
def provAlbumErr : Provider :=
  { searchTracks := fun _ => .ok [], searchAlbums := fun _ => .ok [albumAB],
    track := fun _ => .ok none, album := fun _ => .ok none,
    album_tracks := fun _ => .error "net" }

/-- The error-shaped result produced for `"track:x"` under `provFail`. -/
def rFailX : SearchResult :=
  { query := "x", search_type := "track", found_item := none,
    match_quality := 0, quality_reason := "Search error: boom",
    resolved_tracks := [] }

/-! ### Helper lemmas -/

theorem foldl_inv {α β : Type} (P : β → Prop) (f : β → α → β) :
    ∀ (l : List α) (init : β), P init → (∀ b x, x ∈ l → P b → P (f b x)) →
      P (l.foldl f init) := by
  intro l
  induction l with
  | nil => intro init h0 _; exact h0
  | cons a as ih =>
    intro init h0 hstep
    exact ih (f init a) (hstep init a (by simp) h0)
      (fun b x hx hb => hstep b x (by simp [hx]) hb)

theorem matchAt_le {a b : List Char} {alo blo i j : Nat}
    (h : matchAt a b alo blo i j = true) : alo ≤ i ∧ blo ≤ j := by
  simp only [matchAt, Bool.and_eq_true, decide_eq_true_eq] at h
  exact ⟨h.1.1.1.1, h.1.1.1.2⟩

theorem matchLenAt_le (a b : List Char) (alo blo : Nat) :
    ∀ i j, matchLenAt a b alo blo i j = 0 ∨
      (alo + matchLenAt a b alo blo i j ≤ i + 1 ∧
       blo + matchLenAt a b alo blo i j ≤ j + 1) := by
  intro i
  induction i with
  | zero =>
    intro j
    rw [matchLenAt]
    split
    · rename_i hm
      rcases matchAt_le hm with ⟨h1, h2⟩
      right; omega
    · left; rfl
  | succ i ih =>
    intro j
    cases j with
    | zero =>
      rw [matchLenAt]
      split
      · rename_i hm
        rcases matchAt_le hm with ⟨h1, h2⟩
        right; omega
      · left; rfl
    | succ j =>
      rw [matchLenAt]
      split
      · rename_i hm
        rcases matchAt_le hm with ⟨h1, h2⟩
        split
        · right; omega
        · rcases ih j with h0 | ⟨ha, hb⟩
          · rw [h0]; right; omega
          · right; omega
      · left; rfl

theorem findLongestMatch_inv (a b : List Char) (alo ahi blo bhi : Nat) :
    (findLongestMatch a b alo ahi blo bhi).2.2 = 0 ∨
      (alo ≤ (findLongestMatch a b alo ahi blo bhi).1 ∧
       (findLongestMatch a b alo ahi blo bhi).1 +
         (findLongestMatch a b alo ahi blo bhi).2.2 ≤ ahi ∧
       blo ≤ (findLongestMatch a b alo ahi blo bhi).2.1 ∧
       (findLongestMatch a b alo ahi blo bhi).2.1 +
         (findLongestMatch a b alo ahi blo bhi).2.2 ≤ bhi) := by
  unfold findLongestMatch
  refine foldl_inv (fun t : Nat × Nat × Nat => t.2.2 = 0 ∨
    (alo ≤ t.1 ∧ t.1 + t.2.2 ≤ ahi ∧ blo ≤ t.2.1 ∧ t.2.1 + t.2.2 ≤ bhi))
    _ _ _ (Or.inl rfl) ?_
  intro best i hi hb
  have hi' : alo ≤ i ∧ i < alo + (ahi - alo) := by
    simpa using List.mem_range'_1.mp hi
  refine foldl_inv (fun t : Nat × Nat × Nat => t.2.2 = 0 ∨
    (alo ≤ t.1 ∧ t.1 + t.2.2 ≤ ahi ∧ blo ≤ t.2.1 ∧ t.2.1 + t.2.2 ≤ bhi))
    _ _ _ hb ?_
  intro best2 j hj hb2
  have hj' : blo ≤ j ∧ j < blo + (bhi - blo) := by
    simpa using List.mem_range'_1.mp hj
  dsimp only
  split
  · rename_i hlt
    rcases matchLenAt_le a b alo blo i j with h0 | ⟨h1, h2⟩
    · omega
    · refine Or.inr ⟨?_, ?_, ?_, ?_⟩
      · show alo ≤ i + 1 - matchLenAt a b alo blo i j
        omega
      · show i + 1 - matchLenAt a b alo blo i j + matchLenAt a b alo blo i j ≤ ahi
        omega
      · show blo ≤ j + 1 - matchLenAt a b alo blo i j
        omega
      · show j + 1 - matchLenAt a b alo blo i j + matchLenAt a b alo blo i j ≤ bhi
        omega
  · exact hb2

theorem matchingSize_le (a b : List Char) :
    ∀ fuel alo ahi blo bhi, matchingSize a b fuel alo ahi blo bhi ≤ ahi - alo ∧
      matchingSize a b fuel alo ahi blo bhi ≤ bhi - blo := by
  intro fuel
  induction fuel with
  | zero => intro alo ahi blo bhi; exact ⟨Nat.zero_le _, Nat.zero_le _⟩
  | succ n ih =>
    intro alo ahi blo bhi
    simp only [matchingSize]
    split
    · exact ⟨Nat.zero_le _, Nat.zero_le _⟩
    · rename_i hne
      rcases findLongestMatch_inv a b alo ahi blo bhi with h0 | ⟨h1, h2, h3, h4⟩
      · exact absurd h0 hne
      · rcases ih alo (findLongestMatch a b alo ahi blo bhi).1 blo
          (findLongestMatch a b alo ahi blo bhi).2.1 with ⟨hL1, hL2⟩
        rcases ih ((findLongestMatch a b alo ahi blo bhi).1 +
            (findLongestMatch a b alo ahi blo bhi).2.2) ahi
            ((findLongestMatch a b alo ahi blo bhi).2.1 +
            (findLongestMatch a b alo ahi blo bhi).2.2) bhi with ⟨hR1, hR2⟩
        constructor <;> omega

theorem pyRatio_bounds (a b : List Char) : 0 ≤ pyRatio a b ∧ pyRatio a b ≤ 1 := by
  unfold pyRatio
  split
  · norm_num
  · rename_i h
    have h1 := (matchingSize_le a b (a.length + b.length + 1) 0 a.length 0 b.length).1
    have h2 := (matchingSize_le a b (a.length + b.length + 1) 0 a.length 0 b.length).2
    simp only [Nat.sub_zero] at h1 h2
    have hpos : (0 : ℚ) < (a.length : ℚ) + (b.length : ℚ) := by
      have hp : 0 < a.length + b.length := Nat.pos_of_ne_zero h
      exact_mod_cast hp
    constructor
    · apply div_nonneg _ (le_of_lt hpos)
      positivity
    · rw [div_le_one hpos]
      have hnat : 2 * matchingSize a b (a.length + b.length + 1) 0 a.length 0 b.length ≤
          a.length + b.length := by omega
      exact_mod_cast hnat

theorem calculate_string_similarity_bounds (s1 s2 : String) :
    0 ≤ calculate_string_similarity s1 s2 ∧ calculate_string_similarity s1 s2 ≤ 1 := by
  simp only [calculate_string_similarity]
  split
  · norm_num
  · exact pyRatio_bounds _ _

theorem calculate_fuzzy_word_similarity_bounds (q t : String) :
    0 ≤ calculate_fuzzy_word_similarity q t ∧ calculate_fuzzy_word_similarity q t ≤ 1 := by
  simp only [calculate_fuzzy_word_similarity]
  split
  · norm_num
  · rename_i h
    have hne : ¬ (pySplit (normalize_string q)).isEmpty = true := by
      intro hq
      simp [hq] at h
    have hlen : 0 < (pySplit (normalize_string q)).length := by
      cases hl : pySplit (normalize_string q) with
      | nil => rw [hl] at hne; simp at hne
      | cons w ws => simp
    have hcount : (pySplit (normalize_string q)).countP
        (fun w => hasCloseMatch w (pySplit (normalize_string t))) ≤
        (pySplit (normalize_string q)).length := List.countP_le_length _
    have hlenQ : (0 : ℚ) < ((pySplit (normalize_string q)).length : ℚ) := by
      exact_mod_cast hlen
    constructor
    · apply div_nonneg _ (le_of_lt hlenQ)
      positivity
    · rw [div_le_one hlenQ]
      exact_mod_cast hcount

/-- C5: `calculate_match_quality` — the weighted combination
`0.6 * string_similarity + 0.4 * word_similarity`, with string similarity
the sequence-matching ratio of the normalized strings (0 when either is
empty) and word similarity the matched-query-words fraction (0 when either
word list is empty) — always returns a quality score in the closed interval
`[0, 1]`, for all string inputs. -/
theorem calculate_match_quality_bounds (query result_name result_artists : String) :
    0 ≤ (calculate_match_quality query result_name result_artists).1 ∧
    (calculate_match_quality query result_name result_artists).1 ≤ 1 := by
  simp only [calculate_match_quality]
  split
  · norm_num
  · split
    · norm_num
    · rcases calculate_string_similarity_bounds query
        (pyStrip (result_name ++ " " ++ result_artists)) with ⟨hs0, hs1⟩
      rcases calculate_fuzzy_word_similarity_bounds query
        (pyStrip (result_name ++ " " ++ result_artists)) with ⟨hw0, hw1⟩
      constructor
      · show (0 : ℚ) ≤ 3 / 5 * calculate_string_similarity query
          (pyStrip (result_name ++ " " ++ result_artists)) +
          2 / 5 * calculate_fuzzy_word_similarity query
          (pyStrip (result_name ++ " " ++ result_artists))
        nlinarith
      · show 3 / 5 * calculate_string_similarity query
          (pyStrip (result_name ++ " " ++ result_artists)) +
          2 / 5 * calculate_fuzzy_word_similarity query
          (pyStrip (result_name ++ " " ++ result_artists)) ≤ 1
        nlinarith

theorem dropWhile_head_false (p : Char → Bool) :
    ∀ (l : List Char) c cs, l.dropWhile p = c :: cs → p c = false := by
  intro l
  induction l with
  | nil => intro c cs h; simp [List.dropWhile] at h
  | cons d ds ih =>
    intro c cs h
    rw [List.dropWhile_cons] at h
    split at h
    · exact ih c cs h
    · rename_i hd
      cases h
      simpa using hd

theorem dropWhile_of_head_false (p : Char → Bool) (l : List Char)
    (h : ∀ c cs, l = c :: cs → p c = false) : l.dropWhile p = l := by
  cases l with
  | nil => rfl
  | cons c cs => simp [List.dropWhile_cons, h c cs rfl]

theorem stripChars_head_false (l : List Char) :
    ∀ c cs, stripChars l = c :: cs → pyIsSpace c = false := by
  intro c cs h
  have hsuf : List.dropWhile pyIsSpace ((List.dropWhile pyIsSpace l).reverse) <:+
      (List.dropWhile pyIsSpace l).reverse := List.dropWhile_suffix _
  have hpre := List.reverse_prefix.mpr hsuf
  rw [List.reverse_reverse] at hpre
  obtain ⟨tl, htl⟩ := hpre
  rw [stripChars] at h
  rw [h] at htl
  exact dropWhile_head_false pyIsSpace l c (cs ++ tl) htl.symm

theorem stripChars_rev_head_false (l : List Char) :
    ∀ c cs, (stripChars l).reverse = c :: cs → pyIsSpace c = false := by
  intro c cs h
  rw [stripChars, List.reverse_reverse] at h
  exact dropWhile_head_false _ _ c cs h

theorem stripChars_idem (l : List Char) : stripChars (stripChars l) = stripChars l := by
  have h1 : List.dropWhile pyIsSpace (stripChars l) = stripChars l :=
    dropWhile_of_head_false _ _ (fun c cs h => stripChars_head_false l c cs h)
  have h3 : List.dropWhile pyIsSpace ((stripChars l).reverse) = (stripChars l).reverse := by
    have h2 : (stripChars l).reverse =
        List.dropWhile pyIsSpace ((List.dropWhile pyIsSpace l).reverse) := by
      rw [stripChars, List.reverse_reverse]
    rw [h2]
    exact dropWhile_of_head_false _ _ (fun c cs h => dropWhile_head_false _ _ c cs h)
  calc stripChars (stripChars l)
      = (((stripChars l).dropWhile pyIsSpace).reverse.dropWhile pyIsSpace).reverse := rfl
    _ = ((stripChars l).reverse.dropWhile pyIsSpace).reverse := by rw [h1]
    _ = ((stripChars l).reverse).reverse := by rw [h3]
    _ = stripChars l := List.reverse_reverse _

theorem stripChars_mem {c : Char} {l : List Char} (h : c ∈ stripChars l) : c ∈ l := by
  rw [stripChars, List.mem_reverse] at h
  have h2 := (List.dropWhile_sublist pyIsSpace).subset h
  rw [List.mem_reverse] at h2
  exact (List.dropWhile_sublist pyIsSpace).subset h2

theorem pyStrip_idem (t : String) : pyStrip (pyStrip t) = pyStrip t := by
  show String.mk (stripChars (stripChars t.data)) = String.mk (stripChars t.data)
  rw [stripChars_idem]

/-- C3 counterexample: the claim says no non-alphanumeric, non-whitespace
character (such as an underscore) survives normalization, but Python's
`\w` class keeps underscores: `normalize_string "_"` is `"_"`, and the
underscore is neither alphanumeric nor whitespace. -/
theorem normalize_string_underscore_cex :
    normalize_string "_" = "_" ∧ Char.isAlphanum '_' = false ∧ pyIsSpace '_' = false := by
  refine ⟨by decide, by decide, by decide⟩

/-- C3 (amended): the normalization lower-cases the string, removes every
character that is not a word character (alphanumeric or underscore) and not
whitespace, and trims; an underscore survives normalization.  Stated as:
every surviving character is a word character or whitespace, and the result
carries no leading and no trailing whitespace. -/
theorem normalize_string_amended (s : String) (c : Char) :
    (c ∈ (normalize_string s).data → (isWordChar c || pyIsSpace c) = true) ∧
    (∀ d ds, (normalize_string s).data = d :: ds → pyIsSpace d = false) ∧
    (∀ d ds, (normalize_string s).data.reverse = d :: ds → pyIsSpace d = false) := by
  refine ⟨?_, ?_, ?_⟩
  · intro hc
    have hc' : c ∈ stripChars ((pyLower s).data.filter (fun c => isWordChar c || pyIsSpace c)) := hc
    have hc2 := stripChars_mem hc'
    exact (List.mem_filter.mp hc2).2
  · intro d ds h
    exact stripChars_head_false _ d ds h
  · intro d ds h
    exact stripChars_rev_head_false _ d ds h

/-- C3 witness: the underscore survives `normalize_string "_a"` and is
declared a word character by the amended statement. -/
theorem normalize_string_amended_witness :
    '_' ∈ (normalize_string "_a").data ∧ (isWordChar '_' || pyIsSpace '_') = true :=
  ⟨by decide, (normalize_string_amended "_a" '_').1 (by decide)⟩

/-- C9 counterexample: scoring an empty query together with an empty
candidate name hits the `result_name` check first and returns
`(0, "No result found")`, not `(0, "Empty query")` — the claim's
"no restriction on n" fails at `n = ""`. -/
theorem empty_query_cex :
    calculate_match_quality "" "" "" = (0, "No result found") ∧
    ¬ calculate_match_quality "" "" "" = (0, "Empty query") := by
  exact ⟨by decide, by decide⟩

/-- C9 (amended): for every nonempty candidate name `n` and every `a`,
scoring with an empty query returns exactly `(0, "Empty query")`. -/
theorem empty_query_amended (n a : String) (h : ¬ n = "") :
    calculate_match_quality "" n a = (0, "Empty query") := by
  unfold calculate_match_quality
  rw [if_neg h, if_pos rfl]

/-- C9 witness at `n = "x"`, `a = ""`. -/
theorem empty_query_amended_witness :
    ¬ ("x" : String) = "" ∧ calculate_match_quality "" "x" "" = (0, "Empty query") :=
  ⟨by decide, empty_query_amended "x" "" (by decide)⟩

theorem listStarts_cons {l : List Char} {a : Char} {r : List Char}
    (h : listStarts l (a :: r) = true) : ∃ cs, l = a :: cs ∧ listStarts cs r = true := by
  cases l with
  | nil => simp [listStarts] at h
  | cons c cs =>
    simp only [listStarts, Bool.and_eq_true, beq_iff_eq] at h
    exact ⟨cs, by rw [h.1], h.2⟩

theorem listStarts_ne_head {l r r' : List Char} {a b : Char}
    (h : listStarts l (a :: r) = true) (hne : a ≠ b) :
    listStarts l (b :: r') = false := by
  obtain ⟨cs, rfl, -⟩ := listStarts_cons h
  have hb : (a == b) = false := by simp [hne]
  simp [listStarts, hb]

theorem listStarts_append_ne :
    ∀ (p l : List Char) (a b : Char) (r r' : List Char), a ≠ b →
      listStarts l (p ++ a :: r) = true → listStarts l (p ++ b :: r') = false := by
  intro p
  induction p with
  | nil =>
    intro l a b r r' hne h
    exact listStarts_ne_head h hne
  | cons c cs ih =>
    intro l a b r r' hne h
    obtain ⟨ls, rfl, h2⟩ := listStarts_cons h
    have hrec := ih ls a b r r' hne h2
    simp [listStarts, hrec]

theorem parse_item_snd_stripped (s : String) :
    pyStrip (parse_item s).2 = (parse_item s).2 := by
  simp only [parse_item]
  split
  · exact pyStrip_idem s
  · split
    · exact pyStrip_idem _
    · split
      · exact pyStrip_idem _
      · split
        · exact pyStrip_idem _
        · exact pyStrip_idem s

/-- C8: `parse_item` is a total deterministic function on strings, and a
single application strips at most one prefixing tag: when the residual text
of a classification itself begins with `"track:"` or `"album:"`, a second
application strips exactly that one leading tag (six characters plus a
trim) and nothing more. -/
theorem parse_item_strips_once :
    (∀ s : String, ∃! p : String × String, parse_item s = p) ∧
    (∀ s k t, parse_item s = (k, t) →
      ((strStarts t "track:" = true → parse_item t = ("track", pyStrip (strDrop t 6))) ∧
       (strStarts t "album:" = true → parse_item t = ("album", pyStrip (strDrop t 6))))) := by
  constructor
  · intro s
    exact ⟨parse_item s, rfl, fun y hy => hy.symm⟩
  · intro s k t hp
    have hstrip : pyStrip t = t := by
      have hx := parse_item_snd_stripped s
      rw [hp] at hx
      exact hx
    constructor
    · intro ht
      have ht' : listStarts t.data ('t' :: "rack:".data) = true := ht
      have hsp : strStarts t "spotify:" = false :=
        listStarts_ne_head ht' (by decide)
      have halb : strStarts t "album:" = false :=
        listStarts_ne_head ht' (by decide)
      have hsg : strStarts t "single:" = false :=
        listStarts_ne_head ht' (by decide)
      simp [parse_item, hstrip, hsp, halb, hsg, ht]
    · intro ht
      have ht' : listStarts t.data ('a' :: "lbum:".data) = true := ht
      have hsp : strStarts t "spotify:" = false :=
        listStarts_ne_head ht' (by decide)
      have halb : strStarts t "album:" = true := ht
      simp [parse_item, hstrip, hsp, halb]

/-- C8 witness: `"track: track:x"` classifies to residual `"track:x"`, and
the second application strips exactly the one remaining tag. -/
theorem parse_item_strips_once_witness :
    parse_item "track: track:x" = ("track", "track:x") ∧
    parse_item "track:x" = ("track", pyStrip (strDrop "track:x" 6)) :=
  ⟨by decide,
   (parse_item_strips_once.2 "track: track:x" "track" "track:x" (by decide)).1 (by decide)⟩

theorem search_track_search_type (sp : Provider) (q : String) :
    (search_track sp q).search_type = "track" := by
  unfold search_track
  cases hs : sp.searchTracks q with
  | error e => rfl
  | ok tracks => cases tracks with
    | nil => rfl
    | cons t ts => rfl

theorem search_album_search_type (sp : Provider) (q : String) :
    (search_album sp q).search_type = "album" := by
  unfold search_album
  cases hs : sp.searchAlbums q with
  | error e => rfl
  | ok albums => cases albums with
    | nil => rfl
    | cons al als => rfl

theorem search_track_low (sp : Provider) (q : String)
    (h : (search_track sp q).match_quality ≤ 1 / 5) :
    (search_track sp q).resolved_tracks = [] := by
  unfold search_track at h ⊢
  cases hs : sp.searchTracks q with
  | error e => rfl
  | ok tracks =>
    rw [hs] at h
    cases tracks with
    | nil => rfl
    | cons t ts =>
      dsimp only at h ⊢
      rw [if_neg (not_lt.mpr h)]

theorem search_album_low (sp : Provider) (q : String)
    (h : (search_album sp q).match_quality ≤ 1 / 5) :
    (search_album sp q).resolved_tracks = [] := by
  unfold search_album at h ⊢
  cases hs : sp.searchAlbums q with
  | error e => rfl
  | ok albums =>
    rw [hs] at h
    cases albums with
    | nil => rfl
    | cons al als =>
      dsimp only at h ⊢
      rw [if_neg (not_lt.mpr h)]

theorem search_auto_shape (sp : Provider) (q : String) :
    search_auto sp q = { search_track sp q with search_type := "auto (found track)" } ∨
    search_auto sp q = { search_album sp q with search_type := "auto (found album)" } ∨
    search_auto sp q = { search_track sp q with search_type := "auto (weak track match)" } ∨
    search_auto sp q = { search_album sp q with search_type := "auto (weak album match)" } := by
  simp only [search_auto]
  split
  · left; rfl
  · split
    · right; left; rfl
    · split
      · right; right; left; rfl
      · right; right; right; rfl

/-- C1: every result produced by the orchestrator satisfies the invariant:
a search-derived result (any `search_type` other than `"uri"`) whose
`match_quality` is not strictly greater than 0.2 has empty
`resolved_tracks`; a URI-derived result either carries `match_quality = 1`
with reason `"Direct URI match"` and a nonempty track list (resolution
succeeded) or `match_quality = 0` with an empty track list (it failed). -/
theorem resolve_items_quality_invariant (sp : Provider) (items : List String)
    (r : SearchResult) (hr : r ∈ resolve_items sp items) :
    (r.search_type ≠ "uri" → r.match_quality ≤ 1 / 5 → r.resolved_tracks = []) ∧
    (r.search_type = "uri" →
      (r.match_quality = 1 ∧ r.quality_reason = "Direct URI match" ∧
        r.resolved_tracks ≠ []) ∨
      (r.match_quality = 0 ∧ r.resolved_tracks = [])) := by
  unfold resolve_items at hr
  rw [List.mem_map] at hr
  obtain ⟨item, -, rfl⟩ := hr
  dsimp only
  by_cases h1 : (parse_item item).1 = "uri"
  · rw [if_pos h1]
    cases hu : resolve_uri sp (parse_item item).2 with
    | none =>
      refine ⟨fun hne _ => absurd rfl hne, fun _ => Or.inr ⟨rfl, rfl⟩⟩
    | some tracks =>
      dsimp only
      by_cases he : tracks.isEmpty
      · rw [if_pos he]
        refine ⟨fun hne _ => absurd rfl hne, fun _ => Or.inr ⟨rfl, rfl⟩⟩
      · rw [if_neg he]
        refine ⟨fun hne _ => absurd rfl hne, fun _ => Or.inl ⟨rfl, rfl, ?_⟩⟩
        cases tracks with
        | nil => simp at he
        | cons t ts => simp
  · rw [if_neg h1]
    by_cases h2 : (parse_item item).1 = "track"
    · rw [if_pos h2]
      refine ⟨fun _ hq => search_track_low sp _ hq, fun habs => ?_⟩
      rw [search_track_search_type] at habs
      exact absurd habs (by decide)
    · rw [if_neg h2]
      by_cases h3 : (parse_item item).1 = "album"
      · rw [if_pos h3]
        refine ⟨fun _ hq => search_album_low sp _ hq, fun habs => ?_⟩
        rw [search_album_search_type] at habs
        exact absurd habs (by decide)
      · rw [if_neg h3]
        rcases search_auto_shape sp (parse_item item).2 with h | h | h | h <;> rw [h] <;>
          dsimp only <;>
          refine ⟨fun _ hq => ?_, fun habs => absurd habs (by decide)⟩
        · exact search_track_low sp _ hq
        · exact search_album_low sp _ hq
        · exact search_track_low sp _ hq
        · exact search_album_low sp _ hq

/-- C2: `search_auto` runs the track search first and returns it relabeled
`"auto (found track)"` when its quality exceeds 0.4 (independently of the
album-search behaviour of the provider); otherwise it returns the album
result relabeled `"auto (found album)"` when that exceeds 0.4; otherwise
whichever of the two has the higher quality, relabeled
`"auto (weak track match)"` / `"auto (weak album match)"`, ties favoring
the track result. -/
theorem search_auto_correct (sp : Provider) (q : String) :
    ((search_track sp q).match_quality > 2 / 5 →
      (search_auto sp q = { search_track sp q with search_type := "auto (found track)" } ∧
       ∀ sp₂ : Provider, sp₂.searchTracks = sp.searchTracks →
         search_auto sp₂ q = { search_track sp q with search_type := "auto (found track)" })) ∧
    (¬ (search_track sp q).match_quality > 2 / 5 →
      (search_album sp q).match_quality > 2 / 5 →
      search_auto sp q = { search_album sp q with search_type := "auto (found album)" }) ∧
    (¬ (search_track sp q).match_quality > 2 / 5 →
      ¬ (search_album sp q).match_quality > 2 / 5 →
      (((search_album sp q).match_quality ≤ (search_track sp q).match_quality →
         search_auto sp q = { search_track sp q with search_type := "auto (weak track match)" }) ∧
       ((search_track sp q).match_quality < (search_album sp q).match_quality →
         search_auto sp q = { search_album sp q with search_type := "auto (weak album match)" }))) := by
  refine ⟨?_, ?_, ?_⟩
  · intro h
    have hcongr : ∀ sp₂ : Provider, sp₂.searchTracks = sp.searchTracks →
        search_track sp₂ q = search_track sp q := by
      intro sp₂ h₂
      unfold search_track
      rw [h₂]
    refine ⟨?_, ?_⟩
    · unfold search_auto
      rw [if_pos h]
    · intro sp₂ h₂
      unfold search_auto
      rw [hcongr sp₂ h₂, if_pos h]
  · intro h1 h2
    unfold search_auto
    rw [if_neg h1, if_pos h2]
  · intro h1 h2
    refine ⟨?_, ?_⟩
    · intro h3
      unfold search_auto
      rw [if_neg h1, if_neg h2, if_pos h3]
    · intro h3
      unfold search_auto
      rw [if_neg h1, if_neg h2, if_neg (not_le.mpr h3)]

/-- C4: a provider error is caught at the raising call for every call site
the orchestrator uses — the track search and the album search become a
`SearchResult` with quality 0, empty tracks and reason
`"Search error: {message}"`, and a raising `sp.track` / `sp.album` during
URI resolution makes `resolve_uri` return `none`, which `resolve_items`
turns into the quality-0, empty-tracks URI failure shape; resolution is
per-item (`resolve_items` distributes over list append and yields one
result per input item), so one failing item cannot abort the batch. -/
theorem provider_error_isolated (sp : Provider) (q e item : String)
    (items1 items2 : List String) :
    (sp.searchTracks q = .error e →
      search_track sp q =
        { query := q, search_type := "track", found_item := none,
          match_quality := 0, quality_reason := "Search error: " ++ e,
          resolved_tracks := [] }) ∧
    (sp.searchAlbums q = .error e →
      search_album sp q =
        { query := q, search_type := "album", found_item := none,
          match_quality := 0, quality_reason := "Search error: " ++ e,
          resolved_tracks := [] }) ∧
    (strStarts q "spotify:track:" = true → sp.track (lastSeg q) = .error e →
      resolve_uri sp q = none) ∧
    (strStarts q "spotify:album:" = true → sp.album (lastSeg q) = .error e →
      resolve_uri sp q = none) ∧
    (parse_item item = ("uri", q) → resolve_uri sp q = none →
      resolve_items sp [item] = [uriFailResult q] ∧
      (uriFailResult q).match_quality = 0 ∧ (uriFailResult q).resolved_tracks = []) ∧
    resolve_items sp (items1 ++ items2) =
      resolve_items sp items1 ++ resolve_items sp items2 ∧
    (resolve_items sp (items1 ++ items2)).length = items1.length + items2.length := by
  refine ⟨?_, ?_, ?_, ?_, ?_, ?_, ?_⟩
  · intro h
    unfold search_track
    rw [h]
  · intro h
    unfold search_album
    rw [h]
  · intro h1 h2
    simp [resolve_uri, h1, h2]
  · intro h1 h2
    have h1' : listStarts q.data ("spotify:".data ++ 'a' :: "lbum:".data) = true := h1
    have htrF : strStarts q "spotify:track:" = false := by
      show listStarts q.data ("spotify:".data ++ 't' :: "rack:".data) = false
      exact listStarts_append_ne "spotify:".data q.data 'a' 't' "lbum:".data
        "rack:".data (by decide) h1'
    simp [resolve_uri, htrF, h1, h2]
  · intro hp hn
    exact ⟨by simp [resolve_items, hp, hn], rfl, rfl⟩
  · unfold resolve_items
    exact List.map_append _ _ _
  · unfold resolve_items
    simp [List.length_map, List.length_append]

/-- C6: when the album search finds a candidate of quality above 0.2 but
the track-listing call fails, `search_album` still reports the album as
`found_item` with its quality and reason, and degrades to
`resolved_tracks = []` — distinguishable from "not found" by the nonempty
`found_item`. -/
theorem search_album_degraded_failure (sp : Provider) (q : String) (al : Album)
    (rest : List Album) (e : String)
    (hs : sp.searchAlbums q = .ok (al :: rest))
    (ht : sp.album_tracks al.id = .error e)
    (hq : (calculate_match_quality q al.name (joinComma al.artists)).1 > 1 / 5) :
    search_album sp q =
      { query := q, search_type := "album",
        found_item := some (.albumItem al),
        match_quality := (calculate_match_quality q al.name (joinComma al.artists)).1,
        quality_reason := (calculate_match_quality q al.name (joinComma al.artists)).2,
        resolved_tracks := [] } ∧
    (search_album sp q).found_item ≠ none := by
  have h1 : search_album sp q =
      { query := q, search_type := "album",
        found_item := some (.albumItem al),
        match_quality := (calculate_match_quality q al.name (joinComma al.artists)).1,
        quality_reason := (calculate_match_quality q al.name (joinComma al.artists)).2,
        resolved_tracks := [] } := by
    unfold search_album
    rw [hs]
    dsimp only
    rw [if_pos hq, ht]
  refine ⟨h1, ?_⟩
  rw [h1]
  simp

set_option maxRecDepth 8192 in
/-- C7: the dry-run "good matches only" list is exactly the
`resolved_tracks` of the results with `match_quality ≥ 0.3`, flattened in
order; and the 0.3 consumer threshold is strictly looser than the 0.2
inclusion threshold: a search result of quality 6/25 (strictly between 0.2
and 0.3) has nonempty `resolved_tracks` yet contributes nothing to the
good-matches list. -/
theorem good_tracks_correct :
    (∀ rs : List SearchResult, good_tracks rs = good_tracks_spec rs) ∧
    (1 / 5 < (search_track provWeak "abcde").match_quality ∧
     (search_track provWeak "abcde").match_quality < 3 / 10 ∧
     (search_track provWeak "abcde").resolved_tracks ≠ [] ∧
     good_tracks [search_track provWeak "abcde"] = []) := by
  constructor
  · intro rs
    induction rs with
    | nil => rfl
    | cons r rest ih =>
      have hcons : good_tracks_spec (r :: rest) =
          (if (3 / 10 : ℚ) ≤ r.match_quality then r.resolved_tracks else []) ++
            good_tracks_spec rest := by
        by_cases h : (3 / 10 : ℚ) ≤ r.match_quality
        · simp [good_tracks_spec, List.filter_cons, h]
        · simp [good_tracks_spec, List.filter_cons, h]
      simp only [good_tracks]
      rw [hcons, ih]
  · exact ⟨by with_unfolding_all decide, by with_unfolding_all decide,
      by with_unfolding_all decide, by with_unfolding_all decide⟩

/-- C10: a URI item that is neither `spotify:track:` nor `spotify:album:`
resolves to `none` without consulting the provider's search operations (the
outcome depends only on the `track` / `album` lookups), as does a
`spotify:track:` URI for which the provider returns a falsy record; the
orchestrator then emits the failure shape
`{search_type := "uri", found_item := none, match_quality := 0,
quality_reason := "Invalid or inaccessible URI", resolved_tracks := []}`. -/
theorem resolve_uri_failure (sp sp₂ : Provider) (uri item q : String) :
    (strStarts uri "spotify:track:" = false → strStarts uri "spotify:album:" = false →
      resolve_uri sp uri = none) ∧
    (strStarts uri "spotify:track:" = true → sp.track (lastSeg uri) = .ok none →
      resolve_uri sp uri = none) ∧
    (parse_item item = ("uri", q) → resolve_uri sp q = none →
      resolve_items sp [item] = [uriFailResult q]) ∧
    (sp.track = sp₂.track → sp.album = sp₂.album →
      resolve_uri sp uri = resolve_uri sp₂ uri) := by
  refine ⟨?_, ?_, ?_, ?_⟩
  · intro h1 h2
    simp [resolve_uri, h1, h2]
  · intro h1 h2
    simp [resolve_uri, h1, h2]
  · intro hp hn
    simp [resolve_items, hp, hn]
  · intro h1 h2
    unfold resolve_uri
    rw [h1, h2]

/-- C1 witness at the failing provider and the single item `"track:x"`. -/
theorem resolve_items_quality_invariant_witness :
    (rFailX.search_type ≠ "uri" → rFailX.match_quality ≤ 1 / 5 →
      rFailX.resolved_tracks = []) ∧
    (rFailX.search_type = "uri" →
      (rFailX.match_quality = 1 ∧ rFailX.quality_reason = "Direct URI match" ∧
        rFailX.resolved_tracks ≠ []) ∨
      (rFailX.match_quality = 0 ∧ rFailX.resolved_tracks = [])) :=
  resolve_items_quality_invariant provFail ["track:x"] rFailX (by decide)

/-- C2 witness: an exact track match (quality 1 > 0.4) returns the track
result relabeled without consulting the album search. -/
theorem search_auto_correct_witness :
    (search_track provExact "ab").match_quality > 2 / 5 ∧
    search_auto provExact "ab" =
      { search_track provExact "ab" with search_type := "auto (found track)" } :=
  ⟨by with_unfolding_all decide,
   ((search_auto_correct provExact "ab").1 (by with_unfolding_all decide)).1⟩

/-- C4 witness: under the all-raising provider, the track search yields the
error-shaped result, the raising URI lookup makes `resolve_uri` return
`none` and `resolve_items` emit the quality-0, empty-tracks failure shape,
and batch resolution distributes over append. -/
theorem provider_error_isolated_witness :
    search_track provRaise "x" =
      { query := "x", search_type := "track",
        found_item := none, match_quality := 0,
        quality_reason := "Search error: " ++ "boom", resolved_tracks := [] } ∧
    resolve_uri provRaise "spotify:track:zzz" = none ∧
    (resolve_items provRaise ["spotify:track:zzz"] =
        [uriFailResult "spotify:track:zzz"] ∧
      (uriFailResult "spotify:track:zzz").match_quality = 0 ∧
      (uriFailResult "spotify:track:zzz").resolved_tracks = []) ∧
    resolve_items provRaise (["track:a"] ++ ["spotify:track:zzz"]) =
      resolve_items provRaise ["track:a"] ++
        resolve_items provRaise ["spotify:track:zzz"] :=
  ⟨(provider_error_isolated provRaise "x" "boom" "spotify:track:zzz"
      ["track:a"] ["spotify:track:zzz"]).1 rfl,
   (provider_error_isolated provRaise "spotify:track:zzz" "boom" "spotify:track:zzz"
      ["track:a"] ["spotify:track:zzz"]).2.2.1 (by decide) rfl,
   (provider_error_isolated provRaise "spotify:track:zzz" "boom" "spotify:track:zzz"
      ["track:a"] ["spotify:track:zzz"]).2.2.2.2.1 (by decide) (by decide),
   (provider_error_isolated provRaise "spotify:track:zzz" "boom" "spotify:track:zzz"
      ["track:a"] ["spotify:track:zzz"]).2.2.2.2.2.1⟩

/-- C6 witness: `provAlbumErr` finds `albumAB` (quality 1 > 0.2), the track
listing raises, and the result still carries the album with no tracks. -/
theorem search_album_degraded_failure_witness :
    search_album provAlbumErr "ab" =
      { query := "ab", search_type := "album",
        found_item := some (.albumItem albumAB),
        match_quality := (calculate_match_quality "ab" albumAB.name
          (joinComma albumAB.artists)).1,
        quality_reason := (calculate_match_quality "ab" albumAB.name
          (joinComma albumAB.artists)).2,
        resolved_tracks := [] } ∧
    (search_album provAlbumErr "ab").found_item ≠ none :=
  search_album_degraded_failure provAlbumErr "ab" albumAB [] "net" rfl rfl
    (by with_unfolding_all decide)

/-- C10 witness: `"spotify:playlist:x"` resolves to `none` and the
orchestrator emits the failure shape. -/
theorem resolve_uri_failure_witness :
    resolve_uri provFail "spotify:playlist:x" = none ∧
    resolve_items provFail ["spotify:playlist:x"] =
      [uriFailResult "spotify:playlist:x"] :=
  ⟨(resolve_uri_failure provFail provFail "spotify:playlist:x" "spotify:playlist:x"
      "spotify:playlist:x").1 (by decide) (by decide),
   (resolve_uri_failure provFail provFail "spotify:playlist:x" "spotify:playlist:x"
      "spotify:playlist:x").2.2.1 (by decide) (by decide)⟩
